import Mathlib

/-!
A shallow embedding of the nft-smart-assistant backend.

This file embeds the two backend modules of the repository in Lean 4 and
proves properties of the embedding.

* `src/backend/risk_engine.py` — the `NFTRiskEngine` class: a synthetic risk
  scorer whose inputs are random draws.  Every `random.uniform` /
  `random.randint` call of a Python method becomes a field of an explicit
  "draws" structure, so each method is a pure function of its draws; the
  documented range of each draw becomes a `Valid` predicate.  Python floats
  are modelled as exact rationals (`ℚ`), `round(x, 3)` as round-half-to-even
  on `ℚ`, and a `try/except` body as an `Except PyExc` argument: the `.error`
  case is the except-branch of the source.  Wall-clock ISO timestamp fields
  (`datetime.now().isoformat()`) are outside the model and are omitted from
  the result records; everything else in a returned dict is a field of the
  corresponding structure, with `Option` for keys that an error branch of the
  source leaves out of its dict.

* `src/backend/app.py` — the chain table, the `UnleashNFTsAPI` gateway and the
  Flask routes.  The upstream HTTP service is a parameter
  `resp : UpstreamParams → Option J`: `none` models a request exception or a
  non-2xx status (the except-branch of the gateway returns `None` for both).
  A route result is a `Response`: `success` for the 200 envelope, `failure`
  for a `jsonify({'error': ...}), code` return.  Routes that talk to the
  gateway also return the list of upstream requests they issued, so that
  "no upstream call happens" is a provable statement.
-/

namespace NFTSA

/-- Round-half-to-even to the nearest integer, as Python's builtin `round`
rounds (ties go to the even integer). -/
def roundHalfEven (q : ℚ) : ℤ :=
  if q - ⌊q⌋ < 1/2 then ⌊q⌋
  else if 1/2 < q - ⌊q⌋ then ⌊q⌋ + 1
  else if ⌊q⌋ % 2 = 0 then ⌊q⌋ else ⌊q⌋ + 1

/-- Python's `round(x, 3)` over exact rationals. -/
def round3 (q : ℚ) : ℚ := (roundHalfEven (q * 1000) : ℚ) / 1000

/-- A Python exception value, abstracted to its message. -/
structure PyExc where
  message : String

/-! ## risk_engine.py: thresholds

`NFTRiskEngine.__init__` pins `risk_thresholds` and `fraud_patterns`. -/

def risk_threshold_low : ℚ := 3/10
def risk_threshold_medium : ℚ := 6/10
def risk_threshold_high : ℚ := 8/10

def volume_spike_threshold : ℚ := 5
def repetitive_trading_threshold : ℚ := 7/10
def price_manipulation_threshold : ℚ := 8/10

def metadata_similarity_threshold : ℚ := 9/10
def rapid_minting_threshold : ℕ := 100
def suspicious_traits_threshold : ℚ := 8/10

def creator_activity_threshold : ℚ := 2/10
def liquidity_drain_threshold : ℚ := 8/10
def social_signals_threshold : ℚ := 3/10

/-! ## risk_engine.py: the four sub-analyses behind calculate_risk_score -/

/-- The random draws one run of `calculate_risk_score` consumes, in source
order across `_analyze_volume_patterns`, `_analyze_trading_behavior`,
`_analyze_metadata_integrity` and `_analyze_social_signals`. -/
structure ScoreDraws where
  volume_volatility : ℚ
  unusual_spikes : ℕ
  repetitive_trades : ℚ
  bot_activity : ℚ
  similarity_score : ℚ
  missing_data : ℚ
  engagement_score : ℚ
  sentiment_score : ℚ

/-- The ranges of the `random.uniform` / `random.randint` calls the four
sub-analyses make. -/
def ScoreDraws.Valid (d : ScoreDraws) : Prop :=
  1/10 ≤ d.volume_volatility ∧ d.volume_volatility ≤ 2 ∧
  d.unusual_spikes ≤ 5 ∧
  0 ≤ d.repetitive_trades ∧ d.repetitive_trades ≤ 1 ∧
  0 ≤ d.bot_activity ∧ d.bot_activity ≤ 1 ∧
  0 ≤ d.similarity_score ∧ d.similarity_score ≤ 1 ∧
  0 ≤ d.missing_data ∧ d.missing_data ≤ 1/2 ∧
  0 ≤ d.engagement_score ∧ d.engagement_score ≤ 1 ∧
  -1 ≤ d.sentiment_score ∧ d.sentiment_score ≤ 1

instance (d : ScoreDraws) : Decidable d.Valid := by
  unfold ScoreDraws.Valid; infer_instance

/-- The `risk_score` of `_analyze_volume_patterns`. -/
def volume_risk_score (d : ScoreDraws) : ℚ :=
  min (d.volume_volatility * (3/10) + (d.unusual_spikes : ℚ) * (1/10)) 1

/-- The `risk_score` of `_analyze_trading_behavior`. -/
def trading_risk_score (d : ScoreDraws) : ℚ :=
  d.repetitive_trades * (6/10) + d.bot_activity * (4/10)

/-- The `risk_score` of `_analyze_metadata_integrity`. -/
def metadata_risk_score (d : ScoreDraws) : ℚ :=
  d.similarity_score * (7/10) + d.missing_data * (3/10)

/-- The `risk_score` of `_analyze_social_signals`. -/
def social_risk_score (d : ScoreDraws) : ℚ :=
  max 0 ((1 - d.engagement_score) * (6/10) + max 0 (-d.sentiment_score) * (4/10))

/-- Result dict of `_analyze_volume_patterns`. -/
structure VolumeAnalysis where
  risk_score : ℚ
  volume_volatility : ℚ
  unusual_spikes : ℕ
  pattern_analysis : String

/-- Source `_analyze_volume_patterns(data)` — the `data` argument is never read. -/
def analyze_volume_patterns {α : Type} (data : α) (d : ScoreDraws) : VolumeAnalysis :=
  { risk_score := volume_risk_score d
    volume_volatility := d.volume_volatility
    unusual_spikes := d.unusual_spikes
    pattern_analysis :=
      if 1 < d.volume_volatility then "Moderate volatility detected" else "Normal patterns" }

/-- Result dict of `_analyze_trading_behavior`. -/
structure TradingAnalysis where
  risk_score : ℚ
  repetitive_trades : ℚ
  bot_activity_score : ℚ
  behavior_analysis : String

/-- Source `_analyze_trading_behavior(data)` — the `data` argument is never read. -/
def analyze_trading_behavior {α : Type} (data : α) (d : ScoreDraws) : TradingAnalysis :=
  { risk_score := trading_risk_score d
    repetitive_trades := d.repetitive_trades
    bot_activity_score := d.bot_activity
    behavior_analysis :=
      if 7/10 < d.repetitive_trades then "Suspicious patterns detected" else "Normal behavior" }

/-- Result dict of `_analyze_metadata_integrity` (the source's key for the
second draw is `missing_data_ratio`). -/
structure MetadataAnalysis where
  risk_score : ℚ
  similarity_score : ℚ
  missing_data : ℚ
  integrity_analysis : String

/-- Source `_analyze_metadata_integrity(data)` — the `data` argument is never read. -/
def analyze_metadata_integrity {α : Type} (data : α) (d : ScoreDraws) : MetadataAnalysis :=
  { risk_score := metadata_risk_score d
    similarity_score := d.similarity_score
    missing_data := d.missing_data
    integrity_analysis :=
      if 8/10 < d.similarity_score then "High similarity detected" else "Metadata appears unique" }

/-- Result dict of `_analyze_social_signals`. -/
structure SocialAnalysis where
  risk_score : ℚ
  engagement_score : ℚ
  sentiment_score : ℚ
  social_analysis : String

/-- Source `_analyze_social_signals(data)` — the `data` argument is never read. -/
def analyze_social_signals {α : Type} (data : α) (d : ScoreDraws) : SocialAnalysis :=
  { risk_score := social_risk_score d
    engagement_score := d.engagement_score
    sentiment_score := d.sentiment_score
    social_analysis :=
      if 7/10 < d.engagement_score then "Strong community" else "Weak social presence" }

/-! ## risk_engine.py: calculate_risk_score -/

/-- The `risk_components` dict of `calculate_risk_score`: each sub-analysis
`risk_score` times its fixed weight. -/
structure RiskComponents where
  volume_risk : ℚ
  trading_risk : ℚ
  metadata_risk : ℚ
  social_risk : ℚ

def risk_components (d : ScoreDraws) : RiskComponents :=
  { volume_risk := volume_risk_score d * (3/10)
    trading_risk := trading_risk_score d * (25/100)
    metadata_risk := metadata_risk_score d * (25/100)
    social_risk := social_risk_score d * (2/10) }

/-- Source `total_risk_score = sum(risk_components.values())`. -/
def total_risk_score (d : ScoreDraws) : ℚ :=
  (risk_components d).volume_risk + (risk_components d).trading_risk +
    (risk_components d).metadata_risk + (risk_components d).social_risk

/-- Source `_get_risk_level`. -/
def get_risk_level (score : ℚ) : String :=
  if score < risk_threshold_low then "LOW"
  else if score < risk_threshold_medium then "MEDIUM"
  else if score < risk_threshold_high then "HIGH"
  else "CRITICAL"

/-- Source `_generate_recommendations(risk_score, components)`: a pair of lines
picked by thresholds on the score, then one canned line per weighted
component above 0.6.  The `components.get(key, 0)` defaults never fire here
because the caller always passes all four keys. -/
def generate_recommendations (risk_score : ℚ) (components : RiskComponents) : List String :=
  (if 7/10 < risk_score then
      ["⚠️ HIGH RISK: Avoid investment until further investigation",
       "🔍 Conduct thorough due diligence on project team"]
   else if 5/10 < risk_score then
      ["⚡ MEDIUM RISK: Proceed with caution",
       "📊 Monitor trading patterns closely"]
   else
      ["✅ LOW RISK: Appears relatively safe",
       "📈 Continue monitoring for any changes"])
  ++ (if 6/10 < components.volume_risk then ["📉 Volume patterns show irregularities"] else [])
  ++ (if 6/10 < components.trading_risk then ["🤖 Potential bot activity detected"] else [])
  ++ (if 6/10 < components.metadata_risk then ["📝 Metadata integrity concerns"] else [])
  ++ (if 6/10 < components.social_risk then ["👥 Weak community engagement"] else [])

/-- The `detailed_analysis` dict of `calculate_risk_score`. -/
structure DetailedAnalysis where
  volume_analysis : VolumeAnalysis
  trading_analysis : TradingAnalysis
  metadata_analysis : MetadataAnalysis
  social_analysis : SocialAnalysis

/-- The dict `calculate_risk_score` returns (its `timestamp` key is the wall
clock and is not modelled).  The error branch returns empty dicts for
`risk_components` and `detailed_analysis`, modelled as `none`. -/
structure RiskAssessment where
  overall_risk_score : ℚ
  risk_level : String
  risk_components : Option RiskComponents
  detailed_analysis : Option DetailedAnalysis
  recommendations : List String

/-- Source `_get_default_risk_assessment`. -/
def default_risk_assessment : RiskAssessment :=
  { overall_risk_score := 1/2
    risk_level := "MEDIUM"
    risk_components := none
    detailed_analysis := none
    recommendations := ["Unable to complete analysis - manual review recommended"] }

/-- Source `calculate_risk_score(nft_data)`: the `nft_data` dict is never read; the
random source either yields the draws or raises, and the except-branch
returns the default assessment. -/
def calculate_risk_score {α : Type} (nft_data : α) (draws : Except PyExc ScoreDraws) :
    RiskAssessment :=
  match draws with
  | .error _ => default_risk_assessment
  | .ok d =>
    { overall_risk_score := round3 (total_risk_score d)
      risk_level := get_risk_level (total_risk_score d)
      risk_components := some (risk_components d)
      detailed_analysis := some
        { volume_analysis := analyze_volume_patterns nft_data d
          trading_analysis := analyze_trading_behavior nft_data d
          metadata_analysis := analyze_metadata_integrity nft_data d
          social_analysis := analyze_social_signals nft_data d }
      recommendations := generate_recommendations (total_risk_score d) (risk_components d) }

/-! ## risk_engine.py: the three detectors -/

/-- The random draws of one `detect_wash_trading` run. -/
structure WashDraws where
  volume_spike : ℚ
  repetitive_patterns : ℚ
  price_manipulation : ℚ

/-- Ranges `random.uniform(0.1, 10.0)`, twice `random.uniform(0.0, 1.0)`. -/
def WashDraws.Valid (d : WashDraws) : Prop :=
  1/10 ≤ d.volume_spike ∧ d.volume_spike ≤ 10 ∧
  0 ≤ d.repetitive_patterns ∧ d.repetitive_patterns ≤ 1 ∧
  0 ≤ d.price_manipulation ∧ d.price_manipulation ≤ 1

/-- The combined score of `detect_wash_trading`. -/
def wash_trading_score (d : WashDraws) : ℚ :=
  min (d.volume_spike / volume_spike_threshold) 1 * (4/10) +
    d.repetitive_patterns * (35/100) + d.price_manipulation * (25/100)

structure WashIndicators where
  volume_spike : Bool
  repetitive_patterns : Bool
  price_manipulation : Bool

/-- The dict `detect_wash_trading` returns; the except-branch dict has no
`indicators` / `risk_factors` keys, modelled as `none`. -/
structure WashTradingResult where
  is_wash_trading : Bool
  wash_trading_score : ℚ
  confidence : ℚ
  indicators : Option WashIndicators
  risk_factors : Option (List String)

/-- Source `_get_wash_trading_risk_factors`. -/
def get_wash_trading_risk_factors (volume_spike repetitive manipulation : ℚ) : List String :=
  (if 5 < volume_spike then ["Unusual volume spikes detected"] else []) ++
  (if 7/10 < repetitive then ["Repetitive trading patterns"] else []) ++
  (if 8/10 < manipulation then ["Potential price manipulation"] else [])

/-- Source `detect_wash_trading(trading_data)`: the input dict is never read. -/
def detect_wash_trading {α : Type} (trading_data : α) (draws : Except PyExc WashDraws) :
    WashTradingResult :=
  match draws with
  | .error _ =>
    { is_wash_trading := false, wash_trading_score := 0, confidence := 0,
      indicators := none, risk_factors := none }
  | .ok d =>
    { is_wash_trading := decide (6/10 < wash_trading_score d)
      wash_trading_score := round3 (wash_trading_score d)
      confidence := round3 (min (wash_trading_score d * (12/10)) 1)
      indicators := some
        { volume_spike := decide (volume_spike_threshold < d.volume_spike)
          repetitive_patterns := decide (repetitive_trading_threshold < d.repetitive_patterns)
          price_manipulation := decide (price_manipulation_threshold < d.price_manipulation) }
      risk_factors := some (get_wash_trading_risk_factors d.volume_spike
        d.repetitive_patterns d.price_manipulation) }

/-- The random draws of one `detect_fake_collections` run. -/
structure FakeDraws where
  metadata_similarity : ℚ
  rapid_minting : ℕ
  suspicious_traits : ℚ

/-- Ranges `random.uniform(0.0, 1.0)`, `random.randint(1, 200)`, `random.uniform(0.0, 1.0)`. -/
def FakeDraws.Valid (d : FakeDraws) : Prop :=
  0 ≤ d.metadata_similarity ∧ d.metadata_similarity ≤ 1 ∧
  1 ≤ d.rapid_minting ∧ d.rapid_minting ≤ 200 ∧
  0 ≤ d.suspicious_traits ∧ d.suspicious_traits ≤ 1

/-- The combined score of `detect_fake_collections`. -/
def fake_score (d : FakeDraws) : ℚ :=
  d.metadata_similarity * (4/10) +
    min ((d.rapid_minting : ℚ) / (rapid_minting_threshold : ℚ)) 1 * (3/10) +
    d.suspicious_traits * (3/10)

structure FakeIndicators where
  high_metadata_similarity : Bool
  rapid_minting : Bool
  suspicious_traits : Bool

/-- The dict `detect_fake_collections` returns. -/
structure FakeCollectionResult where
  is_fake_collection : Bool
  fake_score : ℚ
  confidence : ℚ
  indicators : Option FakeIndicators
  risk_factors : Option (List String)

/-- Source `_get_fake_collection_risk_factors`. -/
def get_fake_collection_risk_factors (similarity : ℚ) (minting : ℕ) (traits : ℚ) :
    List String :=
  (if 9/10 < similarity then ["High metadata similarity"] else []) ++
  (if 100 < minting then ["Rapid minting activity"] else []) ++
  (if 8/10 < traits then ["Suspicious trait distribution"] else [])

/-- Source `detect_fake_collections(collection_data)`: the input dict is never read. -/
def detect_fake_collections {α : Type} (collection_data : α) (draws : Except PyExc FakeDraws) :
    FakeCollectionResult :=
  match draws with
  | .error _ =>
    { is_fake_collection := false, fake_score := 0, confidence := 0,
      indicators := none, risk_factors := none }
  | .ok d =>
    { is_fake_collection := decide (7/10 < fake_score d)
      fake_score := round3 (fake_score d)
      confidence := round3 (min (fake_score d * (11/10)) 1)
      indicators := some
        { high_metadata_similarity := decide (metadata_similarity_threshold < d.metadata_similarity)
          rapid_minting := decide (rapid_minting_threshold < d.rapid_minting)
          suspicious_traits := decide (suspicious_traits_threshold < d.suspicious_traits) }
      risk_factors := some (get_fake_collection_risk_factors d.metadata_similarity
        d.rapid_minting d.suspicious_traits) }

/-- The random draws of one `predict_rug_pull_risk` run. -/
structure RugDraws where
  creator_activity : ℚ
  liquidity_drain : ℚ
  social_signals : ℚ

/-- Three `random.uniform(0.0, 1.0)` draws. -/
def RugDraws.Valid (d : RugDraws) : Prop :=
  0 ≤ d.creator_activity ∧ d.creator_activity ≤ 1 ∧
  0 ≤ d.liquidity_drain ∧ d.liquidity_drain ≤ 1 ∧
  0 ≤ d.social_signals ∧ d.social_signals ≤ 1

/-- The combined score of `predict_rug_pull_risk`. -/
def rug_pull_risk (d : RugDraws) : ℚ :=
  (1 - d.creator_activity) * (4/10) + d.liquidity_drain * (35/100) +
    (1 - d.social_signals) * (25/100)

structure RugIndicators where
  low_creator_activity : Bool
  liquidity_concerns : Bool
  weak_social_signals : Bool

/-- The dict `predict_rug_pull_risk` returns. -/
structure RugPullResult where
  is_high_rug_pull_risk : Bool
  rug_pull_risk_score : ℚ
  confidence : ℚ
  indicators : Option RugIndicators
  risk_factors : Option (List String)

/-- Source `_get_rug_pull_risk_factors`. -/
def get_rug_pull_risk_factors (activity liquidity social : ℚ) : List String :=
  (if activity < 2/10 then ["Low creator activity"] else []) ++
  (if 8/10 < liquidity then ["Liquidity concerns"] else []) ++
  (if social < 3/10 then ["Weak social signals"] else [])

/-- Source `predict_rug_pull_risk(project_data)`: the input dict is never read. -/
def predict_rug_pull_risk {α : Type} (project_data : α) (draws : Except PyExc RugDraws) :
    RugPullResult :=
  match draws with
  | .error _ =>
    { is_high_rug_pull_risk := false, rug_pull_risk_score := 0, confidence := 0,
      indicators := none, risk_factors := none }
  | .ok d =>
    { is_high_rug_pull_risk := decide (6/10 < rug_pull_risk d)
      rug_pull_risk_score := round3 (rug_pull_risk d)
      confidence := round3 (min (rug_pull_risk d * (13/10)) 1)
      indicators := some
        { low_creator_activity := decide (d.creator_activity < creator_activity_threshold)
          liquidity_concerns := decide (liquidity_drain_threshold < d.liquidity_drain)
          weak_social_signals := decide (d.social_signals < social_signals_threshold) }
      risk_factors := some (get_rug_pull_risk_factors d.creator_activity
        d.liquidity_drain d.social_signals) }

/-! ## risk_engine.py: generate_risk_report -/

/-- Zero-padded lowercase hex, Python's `f"0x{n:016x}"` for the address-sized
random integers the source draws. -/
def hex_address (n : ℕ) : String :=
  let ds := Nat.toDigits 16 n
  "0x" ++ String.mk (List.replicate (16 - ds.length) '0' ++ ds)

/-- The random draws of `_generate_mock_data` (its `creation_date` key is the
wall clock minus `creation_age_days` days and is not modelled). -/
structure MockDataDraws where
  volume_24h : ℚ
  trades_24h : ℕ
  unique_traders : ℕ
  price_change_24h : ℚ
  metadata_hash : ℕ
  creation_age_days : ℕ

/-- The mock-data dict `_generate_mock_data` returns; it is fed to the four
analyses, none of which read it. -/
structure MockData where
  address : String
  chain : String
  volume_24h : ℚ
  trades_24h : ℕ
  unique_traders : ℕ
  price_change_24h : ℚ
  metadata_hash : String

/-- Source `_generate_mock_data(address, chain)`. -/
def generate_mock_data (address chain : String) (d : MockDataDraws) : MockData :=
  { address := address
    chain := chain
    volume_24h := d.volume_24h
    trades_24h := d.trades_24h
    unique_traders := d.unique_traders
    price_change_24h := d.price_change_24h
    metadata_hash := hex_address d.metadata_hash }

/-- The random draws of `_generate_risk_map_data`: three address lists of
random lengths, the network numbers and the temporal pattern. -/
structure RiskMapDraws where
  high_risk_numbers : List ℕ
  medium_risk_numbers : List ℕ
  low_risk_numbers : List ℕ
  connected_addresses : ℕ
  suspicious_connections : ℕ
  cluster_risk_score : ℚ
  risk_trend_coin : ℚ
  pattern_strength : ℚ

/-- The dict `_generate_risk_map_data` returns, flattened over its
`risk_heatmap` / `network_analysis` / `temporal_patterns` sub-dicts. -/
structure RiskMapData where
  high_risk_addresses : List String
  medium_risk_addresses : List String
  low_risk_addresses : List String
  connected_addresses : ℕ
  suspicious_connections : ℕ
  cluster_risk_score : ℚ
  risk_trend : String
  pattern_strength : ℚ

/-- Source `_generate_risk_map_data(address, chain)` — neither argument is read. -/
def generate_risk_map_data (address chain : String) (d : RiskMapDraws) : RiskMapData :=
  { high_risk_addresses := d.high_risk_numbers.map hex_address
    medium_risk_addresses := d.medium_risk_numbers.map hex_address
    low_risk_addresses := d.low_risk_numbers.map hex_address
    connected_addresses := d.connected_addresses
    suspicious_connections := d.suspicious_connections
    cluster_risk_score := d.cluster_risk_score
    risk_trend := if 1/2 < d.risk_trend_coin then "increasing" else "decreasing"
    pattern_strength := d.pattern_strength }

/-- Two-digit zero padding for `format2`. -/
def pad2 (n : ℕ) : String := if n < 10 then "0" ++ toString n else toString n

/-- Python's `f"{x:.2f}"` over exact rationals (round-half-to-even at the
second decimal). -/
def format2 (q : ℚ) : String :=
  let n := roundHalfEven (q * 100)
  if n < 0 then "-" ++ toString ((-n) / 100) ++ "." ++ pad2 (((-n) % 100).toNat)
  else toString (n / 100) ++ "." ++ pad2 ((n % 100).toNat)

/-- Source `_generate_executive_summary`.  The source reads `risk_level` and
`overall_risk_score` with `.get` defaults that never fire (both payloads of
`calculate_risk_score` carry the keys). -/
def generate_executive_summary (risk_assessment : RiskAssessment)
    (wash_trading : WashTradingResult) (fake_collections : FakeCollectionResult)
    (rug_pull : RugPullResult) : String :=
  let summary := "Risk Assessment Summary: " ++ risk_assessment.risk_level ++
    " RISK (Score: " ++ format2 risk_assessment.overall_risk_score ++ ")\n\n"
  let summary := summary ++
    (if wash_trading.is_wash_trading then "🚨 Wash trading patterns detected\n" else "")
  let summary := summary ++
    (if fake_collections.is_fake_collection then "🚨 Potential fake collection identified\n" else "")
  let summary := summary ++
    (if rug_pull.is_high_rug_pull_risk then "🚨 High rug pull risk detected\n" else "")
  summary ++
    (if risk_assessment.risk_level = "LOW" then
      "✅ This asset appears to have low risk factors."
     else if risk_assessment.risk_level = "MEDIUM" then
      "⚠️ This asset has moderate risk factors that require attention."
     else
      "🚨 This asset has significant risk factors and should be approached with extreme caution.")

/-- The `fraud_detection` dict of a risk report. -/
structure FraudDetection where
  wash_trading : WashTradingResult
  fake_collections : FakeCollectionResult
  rug_pull_risk : RugPullResult

/-- The dict `generate_risk_report` returns (`generated_at` is the wall clock
and is not modelled).  The error branch returns empty `fraud_detection` and
`risk_visualization` dicts, modelled as `none`. -/
structure RiskReport where
  address : String
  chain : String
  analysis_type : String
  overall_assessment : RiskAssessment
  fraud_detection : Option FraudDetection
  risk_visualization : Option RiskMapData
  executive_summary : String

/-- Source `_get_default_risk_report(address, chain)`. -/
def default_risk_report (address chain : String) : RiskReport :=
  { address := address
    chain := chain
    analysis_type := "error"
    overall_assessment := default_risk_assessment
    fraud_detection := none
    risk_visualization := none
    executive_summary := "Analysis could not be completed due to technical issues." }

/-- Everything one `generate_risk_report` run draws: the mock data, the four
sub-operations' draws — each behind its own Except, because each sub-operation
has its own try/except — and the risk-map draws. -/
structure ReportDraws where
  mock : MockDataDraws
  score_draws : Except PyExc ScoreDraws
  wash_draws : Except PyExc WashDraws
  fake_draws : Except PyExc FakeDraws
  rug_draws : Except PyExc RugDraws
  map_draws : RiskMapDraws

/-- Source `generate_risk_report(address, chain, analysis_type)`: builds the mock
data, runs the scorer and the three detectors on it, adds the risk map and
the executive summary; its own except-branch returns the default report. -/
def generate_risk_report (address chain analysis_type : String)
    (draws : Except PyExc ReportDraws) : RiskReport :=
  match draws with
  | .error _ => default_risk_report address chain
  | .ok env =>
    let mock_data := generate_mock_data address chain env.mock
    let risk_assessment := calculate_risk_score mock_data env.score_draws
    let wash_trading_analysis := detect_wash_trading mock_data env.wash_draws
    let fake_collection_analysis := detect_fake_collections mock_data env.fake_draws
    let rug_pull_analysis := predict_rug_pull_risk mock_data env.rug_draws
    { address := address
      chain := chain
      analysis_type := analysis_type
      overall_assessment := risk_assessment
      fraud_detection := some
        { wash_trading := wash_trading_analysis
          fake_collections := fake_collection_analysis
          rug_pull_risk := rug_pull_analysis }
      risk_visualization := some (generate_risk_map_data address chain env.map_draws)
      executive_summary := generate_executive_summary risk_assessment wash_trading_analysis
        fake_collection_analysis rug_pull_analysis }

/-! ## app.py: chain table and gateway -/

/-- Source `CHAIN_ID_MAP`: chain name to Unleash NFTs numeric blockchain id. -/
def CHAIN_ID_MAP : List (String × ℕ) :=
  [("ethereum", 1), ("polygon", 137), ("bsc", 57),
   ("avalanche", 43114), ("linea", 59144), ("solana", 900)]

/-- Source `SUPPORTED_CHAINS`. -/
def SUPPORTED_CHAINS : List String :=
  ["ethereum", "polygon", "bsc", "avalanche", "linea", "solana"]

/-- Source `CHAIN_ID_MAP.get(chain, 1)`: the id of a mapped chain, 1 for anything
else. -/
def chain_id_of (chain : String) : ℕ :=
  match CHAIN_ID_MAP.lookup chain with
  | some chain_id => chain_id
  | none => 1

/-- The query parameters of one outbound GET to the upstream
`/market/metrics` endpoint (the base URL and the api-key header are fixed). -/
structure UpstreamParams where
  currency : String
  blockchain : ℕ
  metrics : String
  time_range : String
  include_washtrade : String
deriving DecidableEq

/-- The query `UnleashNFTsAPI.get_market_metrics` builds. -/
def api_market_metrics_params (chain metrics time_range currency : String) : UpstreamParams :=
  { currency := currency
    blockchain := chain_id_of chain
    metrics := metrics
    time_range := time_range
    include_washtrade := "true" }

/-- Source `UnleashNFTsAPI.get_market_metrics`: issue the query; `resp` abstracts the
upstream service, `none` standing for a request exception or non-2xx status
(the method's except-branch returns `None` for both).  The JSON body is an
opaque `J`; a body that is falsy in Python (an empty dict) is folded into
`none` as well — the source's `if result:` test in the multi-metric loop and
its `is None` tests in the routes differ only on that body, which this model
does not distinguish from a failed call. -/
def get_market_metrics {J : Type} (resp : UpstreamParams → Option J)
    (chain metrics time_range currency : String) : Option J :=
  resp (api_market_metrics_params chain metrics time_range currency)

/-- The query `UnleashNFTsAPI.get_washtrade_metrics` builds: the single-metric
query with the metric hardcoded to `washtrade_volume`. -/
def api_washtrade_params (chain time_range currency : String) : UpstreamParams :=
  { currency := currency
    blockchain := chain_id_of chain
    metrics := "washtrade_volume"
    time_range := time_range
    include_washtrade := "true" }

/-- Source `UnleashNFTsAPI.get_washtrade_metrics`. -/
def get_washtrade_metrics {J : Type} (resp : UpstreamParams → Option J)
    (chain time_range currency : String) : Option J :=
  resp (api_washtrade_params chain time_range currency)

/-- Membership test of a Python dict keyed by strings (association list in
insertion order). -/
def dict_mem {J : Type} (d : List (String × J)) (k : String) : Bool :=
  match d with
  | [] => false
  | (k', _) :: t => if k' = k then true else dict_mem t k

/-- Assignment `d[k] = v` on a Python dict: overwrite in place when the key exists,
append otherwise. -/
def dict_insert {J : Type} (d : List (String × J)) (k : String) (v : J) :
    List (String × J) :=
  if dict_mem d k then d.map (fun p => if p.1 = k then (k, v) else p)
  else d ++ [(k, v)]

/-- Lookup `d.get(k)` on a Python dict. -/
def dict_get {J : Type} (d : List (String × J)) (k : String) : Option J :=
  match d with
  | [] => none
  | (k', v) :: t => if k' = k then some v else dict_get t k

/-- One iteration of the `for metric in metrics_list` loop of
`UnleashNFTsAPI.get_multiple_metrics`: call the single-metric query and keep
the result under the metric's name when it succeeded. -/
def metric_call_step {J : Type} (resp : UpstreamParams → Option J)
    (chain time_range currency : String) (results : List (String × J))
    (metric : String) : List (String × J) :=
  match get_market_metrics resp chain metric time_range currency with
  | some result => dict_insert results metric result
  | none => results

/-- The `results` dict after the whole loop of
`UnleashNFTsAPI.get_multiple_metrics`. -/
def collect_metric_results {J : Type} (resp : UpstreamParams → Option J)
    (chain : String) (metrics_list : List String) (time_range currency : String) :
    List (String × J) :=
  metrics_list.foldl (metric_call_step resp chain time_range currency) []

/-- Source `UnleashNFTsAPI.get_multiple_metrics`: one single-metric call per
requested name, successes collected by metric name; `None` when the dict
stayed empty.  The source wraps the dict as `{'metric_values': results}`;
the one-key wrapper is elided, the value is the dict itself. -/
def get_multiple_metrics {J : Type} (resp : UpstreamParams → Option J)
    (chain : String) (metrics_list : List String) (time_range currency : String) :
    Option (List (String × J)) :=
  let results := collect_metric_results resp chain metrics_list time_range currency
  if results.isEmpty then none else some results

/-- The upstream queries the loop of `get_multiple_metrics` issues: one per
requested metric name, in list order. -/
def multiple_metrics_calls (chain : String) (metrics_list : List String)
    (time_range currency : String) : List UpstreamParams :=
  metrics_list.map (fun metric => api_market_metrics_params chain metric time_range currency)

/-! ## app.py: routes -/

/-- What a route handler returns: the 200 envelope's payload, or a
`jsonify({'error': message}), status` pair. -/
inductive Response (B : Type) where
  | success (body : B)
  | failure (status : ℕ) (message : String)

/-- Source `metrics_list = [m.strip() for m in metrics_param.split(',')]` in the
multiple-metrics route. -/
def parse_metrics_param (metrics_param : String) : List String :=
  (metrics_param.splitOn ",").map String.trim

/-- The 200 envelope of `/api/market/metrics/<chain>` (its `timestamp` key is
the wall clock and is not modelled). -/
structure MarketMetricsBody (J : Type) where
  chain : String
  metrics : String
  time_range : String
  currency : String
  data : J

/-- The `/api/market/metrics/<chain>` route: reject an unsupported chain with
400 before anything else, then delegate to the gateway and map `None` to a
500.  The second component lists the upstream queries issued. -/
def market_metrics_route {J : Type} (resp : UpstreamParams → Option J)
    (chain metrics time_range currency : String) :
    Response (MarketMetricsBody J) × List UpstreamParams :=
  if chain ∈ SUPPORTED_CHAINS then
    let p := api_market_metrics_params chain metrics time_range currency
    match get_market_metrics resp chain metrics time_range currency with
    | none => (.failure 500 "Failed to get market metrics", [p])
    | some result =>
      (.success { chain := chain, metrics := metrics, time_range := time_range,
                  currency := currency, data := result }, [p])
  else (.failure 400 ("Unsupported chain: " ++ chain), [])

/-- The 200 envelope of `/api/market/multiple-metrics/<chain>`. -/
structure MultipleMetricsBody (J : Type) where
  chain : String
  metrics : List String
  time_range : String
  currency : String
  data : List (String × J)

/-- The `/api/market/multiple-metrics/<chain>` route. -/
def multiple_metrics_route {J : Type} (resp : UpstreamParams → Option J)
    (chain metrics_param time_range currency : String) :
    Response (MultipleMetricsBody J) × List UpstreamParams :=
  if chain ∈ SUPPORTED_CHAINS then
    let metrics_list := parse_metrics_param metrics_param
    match get_multiple_metrics resp chain metrics_list time_range currency with
    | none => (.failure 500 "Failed to get multiple metrics",
               multiple_metrics_calls chain metrics_list time_range currency)
    | some results =>
      (.success { chain := chain, metrics := metrics_list, time_range := time_range,
                  currency := currency, data := results },
       multiple_metrics_calls chain metrics_list time_range currency)
  else (.failure 400 ("Unsupported chain: " ++ chain), [])

/-- The 200 envelope of `/api/risk/comprehensive/<chain>/<address>` (the
constant `success: True` flag is implied by `Response.success`; `timestamp`
is the wall clock and is not modelled). -/
structure ComprehensiveRiskBody where
  analysis_type : String
  chain : String
  address : String
  data : RiskReport

/-- The `/api/risk/comprehensive/<chain>/<address>` route: reject an
unsupported chain with 400, otherwise generate the report.  The handler's own
except-branch (500) is unreachable here because `generate_risk_report`
catches internally and the envelope construction is total. -/
def comprehensive_risk_route (chain address analysis_type : String)
    (draws : Except PyExc ReportDraws) : Response ComprehensiveRiskBody :=
  if chain ∈ SUPPORTED_CHAINS then
    .success { analysis_type := "comprehensive_risk", chain := chain, address := address,
               data := generate_risk_report address chain analysis_type draws }
  else .failure 400 ("Unsupported chain: " ++ chain)

/-! ## Theorems -/

/-- C1: every run of the overall risk scorer returns, as its overall score,
the weighted sum 0.3·volume + 0.25·trading + 0.25·metadata + 0.2·social
rounded to 3 decimals, each sub-score pinned to its formula over the drawn
random inputs: volume = min(volatility·0.3 + spikes·0.1, 1), trading =
repetitive·0.6 + bot·0.4, metadata = similarity·0.7 + missing·0.3, social =
max(0, (1−engagement)·0.6 + max(0, −sentiment)·0.4). -/
theorem overall_score_weighted_formula {α : Type} (nft_data : α) (d : ScoreDraws)
    (h : d.Valid) :
    (calculate_risk_score nft_data (Except.ok d)).overall_risk_score =
      round3 ((3/10) * min (d.volume_volatility * (3/10) + (d.unusual_spikes : ℚ) * (1/10)) 1
        + (25/100) * (d.repetitive_trades * (6/10) + d.bot_activity * (4/10))
        + (25/100) * (d.similarity_score * (7/10) + d.missing_data * (3/10))
        + (2/10) * max 0 ((1 - d.engagement_score) * (6/10)
            + max 0 (-d.sentiment_score) * (4/10))) := by
  simp only [calculate_risk_score]
  congr 1
  simp only [total_risk_score, risk_components, volume_risk_score, trading_risk_score,
    metadata_risk_score, social_risk_score]
  ring

/-- Midpoint draws: every uniform input at the centre of its documented
range. -/
def d_mid : ScoreDraws :=
  { volume_volatility := 1, unusual_spikes := 2, repetitive_trades := 1/2,
    bot_activity := 1/2, similarity_score := 1/2, missing_data := 1/4,
    engagement_score := 1/2, sentiment_score := 0 }

/-- Witness for C1 at the midpoint draws. -/
theorem overall_score_weighted_formula_witness :
    (calculate_risk_score (0 : ℕ) (Except.ok d_mid)).overall_risk_score =
      round3 ((3/10) * min (d_mid.volume_volatility * (3/10)
          + (d_mid.unusual_spikes : ℚ) * (1/10)) 1
        + (25/100) * (d_mid.repetitive_trades * (6/10) + d_mid.bot_activity * (4/10))
        + (25/100) * (d_mid.similarity_score * (7/10) + d_mid.missing_data * (3/10))
        + (2/10) * max 0 ((1 - d_mid.engagement_score) * (6/10)
            + max 0 (-d_mid.sentiment_score) * (4/10))) :=
  overall_score_weighted_formula 0 d_mid (by norm_num [d_mid, ScoreDraws.Valid])

/-- The rank of a risk-level label, for stating monotonicity of the
bucketing. -/
def level_rank (level : String) : ℕ :=
  if level = "LOW" then 0 else if level = "MEDIUM" then 1
  else if level = "HIGH" then 2 else if level = "CRITICAL" then 3 else 4

/-- C2: `_get_risk_level` returns LOW below 0.3, MEDIUM on [0.3, 0.6), HIGH on
[0.6, 0.8), CRITICAL from 0.8 up; it is exhaustive over the four labels,
monotone in the score, and each boundary value lands in the higher bucket. -/
theorem risk_level_bucketing (s t : ℚ) :
    (s < 3/10 → get_risk_level s = "LOW") ∧
    (3/10 ≤ s ∧ s < 6/10 → get_risk_level s = "MEDIUM") ∧
    (6/10 ≤ s ∧ s < 8/10 → get_risk_level s = "HIGH") ∧
    (8/10 ≤ s → get_risk_level s = "CRITICAL") ∧
    (get_risk_level s = "LOW" ∨ get_risk_level s = "MEDIUM" ∨
      get_risk_level s = "HIGH" ∨ get_risk_level s = "CRITICAL") ∧
    (s ≤ t → level_rank (get_risk_level s) ≤ level_rank (get_risk_level t)) ∧
    get_risk_level (3/10) = "MEDIUM" ∧
    get_risk_level (6/10) = "HIGH" ∧
    get_risk_level (8/10) = "CRITICAL" := by
  have hlow : risk_threshold_low = 3/10 := rfl
  have hmed : risk_threshold_medium = 6/10 := rfl
  have hhigh : risk_threshold_high = 8/10 := rfl
  refine ⟨?_, ?_, ?_, ?_, ?_, ?_, ?_, ?_, ?_⟩
  · intro hs
    simp only [get_risk_level, hlow]
    rw [if_pos hs]
  · rintro ⟨h1, h2⟩
    simp only [get_risk_level, hlow, hmed]
    rw [if_neg (by linarith), if_pos h2]
  · rintro ⟨h1, h2⟩
    simp only [get_risk_level, hlow, hmed, hhigh]
    rw [if_neg (by linarith), if_neg (by linarith), if_pos h2]
  · intro hs
    simp only [get_risk_level, hlow, hmed, hhigh]
    rw [if_neg (by linarith), if_neg (by linarith), if_neg (by linarith)]
  · simp only [get_risk_level]
    split_ifs <;> simp
  · intro hst
    simp only [get_risk_level, hlow, hmed, hhigh]
    split_ifs <;> first | decide | linarith
  · norm_num [get_risk_level, risk_threshold_low, risk_threshold_medium, risk_threshold_high]
  · norm_num [get_risk_level, risk_threshold_low, risk_threshold_medium, risk_threshold_high]
  · norm_num [get_risk_level, risk_threshold_low, risk_threshold_medium, risk_threshold_high]

/-- C9: the scorer and all three detectors ignore their input data: against
the same draws, any two inputs of any types give identical outputs. -/
theorem engine_input_independence {α β : Type} (data1 : α) (data2 : β)
    (sd : Except PyExc ScoreDraws) (wd : Except PyExc WashDraws)
    (fd : Except PyExc FakeDraws) (rd : Except PyExc RugDraws) :
    calculate_risk_score data1 sd = calculate_risk_score data2 sd ∧
    detect_wash_trading data1 wd = detect_wash_trading data2 wd ∧
    detect_fake_collections data1 fd = detect_fake_collections data2 fd ∧
    predict_rug_pull_risk data1 rd = predict_rug_pull_risk data2 rd := by
  refine ⟨?_, rfl, rfl, rfl⟩
  cases sd <;> rfl

/-- C6 (counterexample): a detector's except-branch does not return the
0.5/MEDIUM "manual review recommended" payload: `detect_wash_trading` falls
back to flag false, score 0.0, confidence 0.0, with no recommendation text at
all, and 0.0 differs from the default assessment's 0.5 score. -/
theorem detector_fallback_is_not_medium_default :
    detect_wash_trading (0 : ℕ) (Except.error { message := "boom" }) =
      { is_wash_trading := false, wash_trading_score := 0, confidence := 0,
        indicators := none, risk_factors := none } ∧
    (detect_wash_trading (0 : ℕ) (Except.error { message := "boom" })).wash_trading_score ≠
      default_risk_assessment.overall_risk_score ∧
    default_risk_assessment.overall_risk_score = 1/2 := by
  refine ⟨rfl, ?_, rfl⟩
  show (0 : ℚ) ≠ 1/2
  norm_num

/-- C6 (amended): no operation of the risk scorer propagates an internal
exception.  The overall-score and report operations return the fixed default
payload — score 0.5, level MEDIUM, the "manual review recommended" line —
while each of the three detectors returns its own fixed fallback of flag
false, score 0.0 and confidence 0.0 with no indicator or risk-factor keys. -/
theorem no_exception_propagation {α β γ δ : Type} (a : α) (b : β) (c : γ) (r : δ)
    (e1 e2 e3 e4 e5 : PyExc) (address chain analysis_type : String) :
    calculate_risk_score a (Except.error e1) = default_risk_assessment ∧
    generate_risk_report address chain analysis_type (Except.error e2) =
      default_risk_report address chain ∧
    default_risk_assessment.overall_risk_score = 1/2 ∧
    default_risk_assessment.risk_level = "MEDIUM" ∧
    default_risk_assessment.recommendations =
      ["Unable to complete analysis - manual review recommended"] ∧
    (default_risk_report address chain).overall_assessment = default_risk_assessment ∧
    detect_wash_trading b (Except.error e3) =
      { is_wash_trading := false, wash_trading_score := 0, confidence := 0,
        indicators := none, risk_factors := none } ∧
    detect_fake_collections c (Except.error e4) =
      { is_fake_collection := false, fake_score := 0, confidence := 0,
        indicators := none, risk_factors := none } ∧
    predict_rug_pull_risk r (Except.error e5) =
      { is_high_rug_pull_risk := false, rug_pull_risk_score := 0, confidence := 0,
        indicators := none, risk_factors := none } :=
  ⟨rfl, rfl, rfl, rfl, rfl, rfl, rfl, rfl, rfl⟩

/-- C3: the chain routes accept exactly the six supported names.  A supported
chain passes validation: the market-metrics route issues its one upstream
query and never answers 400, and the comprehensive route builds the report.
Any other string gets a 400 whose body carries "Unsupported chain: <chain>",
with no upstream query and no report generated. -/
theorem route_chain_validation {J : Type} (resp : UpstreamParams → Option J)
    (chain metrics time_range currency address analysis_type : String)
    (draws : Except PyExc ReportDraws) :
    (chain ∈ SUPPORTED_CHAINS ↔
      (chain = "ethereum" ∨ chain = "polygon" ∨ chain = "bsc" ∨
       chain = "avalanche" ∨ chain = "linea" ∨ chain = "solana")) ∧
    (chain ∈ SUPPORTED_CHAINS →
      (market_metrics_route resp chain metrics time_range currency).2 =
        [api_market_metrics_params chain metrics time_range currency] ∧
      (∀ msg, (market_metrics_route resp chain metrics time_range currency).1 ≠
        Response.failure 400 msg) ∧
      comprehensive_risk_route chain address analysis_type draws =
        Response.success
          { analysis_type := "comprehensive_risk", chain := chain, address := address,
            data := generate_risk_report address chain analysis_type draws }) ∧
    (chain ∉ SUPPORTED_CHAINS →
      market_metrics_route resp chain metrics time_range currency =
        (Response.failure 400 ("Unsupported chain: " ++ chain), []) ∧
      comprehensive_risk_route chain address analysis_type draws =
        Response.failure 400 ("Unsupported chain: " ++ chain)) := by
  refine ⟨by simp [SUPPORTED_CHAINS], ?_, ?_⟩
  · intro hmem
    simp only [market_metrics_route, comprehensive_risk_route, if_pos hmem]
    cases hr : get_market_metrics resp chain metrics time_range currency <;>
      simp [hr]
  · intro hmem
    constructor <;> simp [market_metrics_route, comprehensive_risk_route, hmem]

/-- C4: the chain-identifier table holds exactly the six supported names with
their fixed numeric ids, and for every entry both gateway query builders put
that id in the `blockchain` parameter. -/
theorem chain_id_map_fixed (metrics time_range currency : String) :
    CHAIN_ID_MAP = [("ethereum", 1), ("polygon", 137), ("bsc", 57),
      ("avalanche", 43114), ("linea", 59144), ("solana", 900)] ∧
    (CHAIN_ID_MAP.map Prod.fst = SUPPORTED_CHAINS) ∧
    (∀ chain chain_id, (chain, chain_id) ∈ CHAIN_ID_MAP →
      chain_id_of chain = chain_id ∧
      (api_market_metrics_params chain metrics time_range currency).blockchain = chain_id ∧
      (api_washtrade_params chain time_range currency).blockchain = chain_id) := by
  refine ⟨rfl, rfl, ?_⟩
  intro chain chain_id hmem
  have hid : chain_id_of chain = chain_id := by
    simp only [CHAIN_ID_MAP, List.mem_cons, List.not_mem_nil, or_false,
      Prod.mk.injEq] at hmem
    rcases hmem with ⟨h1, h2⟩ | ⟨h1, h2⟩ | ⟨h1, h2⟩ | ⟨h1, h2⟩ | ⟨h1, h2⟩ | ⟨h1, h2⟩ <;>
      subst h1 <;> subst h2 <;> rfl
  exact ⟨hid, hid, hid⟩

/-- C10: the gateway itself never rejects a chain name.  Called directly with
any chain, mapped or not, the single-metric and wash-trade operations query
the upstream service, and a name outside the table silently falls back to
blockchain id 1 (ethereum's).  Only the routes validate chain names. -/
theorem gateway_unmapped_chain_defaults {J : Type} (resp : UpstreamParams → Option J)
    (chain metrics time_range currency : String) :
    (chain ∉ SUPPORTED_CHAINS →
      chain_id_of chain = 1 ∧
      (api_market_metrics_params chain metrics time_range currency).blockchain = 1 ∧
      (api_washtrade_params chain time_range currency).blockchain = 1) ∧
    get_market_metrics resp chain metrics time_range currency =
      resp (api_market_metrics_params chain metrics time_range currency) ∧
    get_washtrade_metrics resp chain time_range currency =
      resp (api_washtrade_params chain time_range currency) := by
  refine ⟨?_, rfl, rfl⟩
  intro hmem
  have hid : chain_id_of chain = 1 := by
    simp only [SUPPORTED_CHAINS, List.mem_cons, List.not_mem_nil, or_false] at hmem
    push_neg at hmem
    obtain ⟨h1, h2, h3, h4, h5, h6⟩ := hmem
    have hb : ∀ s : String, chain ≠ s → (chain == s) = false := by
      intro s hs
      exact beq_eq_false_iff_ne.mpr hs
    simp [chain_id_of, CHAIN_ID_MAP, List.lookup, hb _ h1, hb _ h2, hb _ h3,
      hb _ h4, hb _ h5, hb _ h6]
  exact ⟨hid, hid, hid⟩

/-! ## Bounds on the scorer -/

/-- Rounding to the nearest integer moves by less than one: the result lies
between the floor and the floor plus one. -/
theorem roundHalfEven_bounds (q : ℚ) :
    (⌊q⌋ : ℤ) ≤ roundHalfEven q ∧ roundHalfEven q ≤ ⌊q⌋ + 1 := by
  unfold roundHalfEven
  split_ifs <;> omega

/-- Rounding by `round3` keeps nonnegative rationals nonnegative. -/
theorem round3_nonneg (q : ℚ) (h : 0 ≤ q) : 0 ≤ round3 q := by
  unfold round3
  have h1 : (0 : ℤ) ≤ ⌊q * 1000⌋ := Int.floor_nonneg.mpr (by linarith)
  have h2 := (roundHalfEven_bounds (q * 1000)).1
  have h3 : (0 : ℚ) ≤ (roundHalfEven (q * 1000) : ℚ) := by exact_mod_cast le_trans h1 h2
  linarith

/-- Rounding by `round3` of anything at most 0.9625 stays at most 1. -/
theorem round3_le_one (q : ℚ) (h : q ≤ 77/80) : round3 q ≤ 1 := by
  unfold round3
  have h2 := (roundHalfEven_bounds (q * 1000)).2
  have h3 : (⌊q * 1000⌋ : ℚ) ≤ q * 1000 := Int.floor_le _
  have h4 : (roundHalfEven (q * 1000) : ℚ) ≤ (⌊q * 1000⌋ : ℚ) + 1 := by exact_mod_cast h2
  linarith

/-- For draws inside the documented ranges, the four raw sub-scores are
bounded: volume in [0,1] (clamped), trading in [0,1], metadata in [0,0.85],
social in [0,1]. -/
theorem sub_risk_scores_bounds (d : ScoreDraws) (h : d.Valid) :
    (0 ≤ volume_risk_score d ∧ volume_risk_score d ≤ 1) ∧
    (0 ≤ trading_risk_score d ∧ trading_risk_score d ≤ 1) ∧
    (0 ≤ metadata_risk_score d ∧ metadata_risk_score d ≤ 17/20) ∧
    (0 ≤ social_risk_score d ∧ social_risk_score d ≤ 1) := by
  obtain ⟨h1, h2, h3, h4, h5, h6, h7, h8, h9, h10, h11, h12, h13, h14, h15⟩ := h
  have hsp0 : (0 : ℚ) ≤ (d.unusual_spikes : ℚ) := Nat.cast_nonneg _
  have hx0 : (0 : ℚ) ≤ max 0 (-d.sentiment_score) := le_max_left _ _
  have hx1 : max 0 (-d.sentiment_score) ≤ 1 := max_le (by norm_num) (by linarith)
  refine ⟨⟨?_, min_le_right _ _⟩, ⟨?_, ?_⟩, ⟨?_, ?_⟩, ⟨le_max_left _ _, ?_⟩⟩
  · exact le_min (by linarith) (by norm_num)
  · unfold trading_risk_score; linarith
  · unfold trading_risk_score; linarith
  · unfold metadata_risk_score; linarith
  · unfold metadata_risk_score; linarith
  · unfold social_risk_score
    exact max_le (by norm_num) (by linarith)

/-- For draws inside the documented ranges, the unrounded weighted total lies
in [0, 0.9625]. -/
theorem total_risk_score_bounds (d : ScoreDraws) (h : d.Valid) :
    0 ≤ total_risk_score d ∧ total_risk_score d ≤ 77/80 := by
  obtain ⟨⟨hv0, hv1⟩, ⟨ht0, ht1⟩, ⟨hm0, hm1⟩, ⟨hs0, hs1⟩⟩ := sub_risk_scores_bounds d h
  constructor <;> simp only [total_risk_score, risk_components] <;> linarith

/-- C8 (counterexample): no admissible draw puts the weighted total, or the
rounded overall score, outside [0,1] — the sub-scores are not individually
clamped, yet their documented ranges already cap the total at 0.9625. -/
theorem score_never_escapes_unit_interval :
    ¬ ∃ d : ScoreDraws, d.Valid ∧
      (total_risk_score d < 0 ∨ 1 < total_risk_score d ∨
       (calculate_risk_score (0 : ℕ) (Except.ok d)).overall_risk_score < 0 ∨
       1 < (calculate_risk_score (0 : ℕ) (Except.ok d)).overall_risk_score) := by
  rintro ⟨d, hv, hcase⟩
  obtain ⟨hb0, hb1⟩ := total_risk_score_bounds d hv
  have ho : (calculate_risk_score (0 : ℕ) (Except.ok d)).overall_risk_score =
      round3 (total_risk_score d) := rfl
  have h2 := round3_nonneg (total_risk_score d) hb0
  have h3 := round3_le_one (total_risk_score d) hb1
  rcases hcase with hc | hc | hc | hc <;> rw [ho] at * <;> linarith

/-- C8 (amended): the overall risk score is guaranteed to lie in [0,1] even
though the sub-scores are not individually clamped before weighting: for
every admissible draw the weighted total lies in [0, 0.9625] and the rounded
overall score in [0, 1]. -/
theorem overall_score_bounds {α : Type} (a : α) (d : ScoreDraws) (h : d.Valid) :
    0 ≤ total_risk_score d ∧ total_risk_score d ≤ 77/80 ∧
    0 ≤ (calculate_risk_score a (Except.ok d)).overall_risk_score ∧
    (calculate_risk_score a (Except.ok d)).overall_risk_score ≤ 1 := by
  obtain ⟨hb0, hb1⟩ := total_risk_score_bounds d h
  refine ⟨hb0, hb1, ?_, ?_⟩
  · show 0 ≤ round3 (total_risk_score d)
    exact round3_nonneg _ hb0
  · show round3 (total_risk_score d) ≤ 1
    exact round3_le_one _ hb1

/-- Witness for C8 at the midpoint draws. -/
theorem overall_score_bounds_witness :
    0 ≤ total_risk_score d_mid ∧ total_risk_score d_mid ≤ 77/80 ∧
    0 ≤ (calculate_risk_score (0 : ℕ) (Except.ok d_mid)).overall_risk_score ∧
    (calculate_risk_score (0 : ℕ) (Except.ok d_mid)).overall_risk_score ≤ 1 :=
  overall_score_bounds 0 d_mid (by norm_num [d_mid, ScoreDraws.Valid])

/-- Draws inside every documented range whose metadata sub-score is 0.85,
with everything else as unsuspicious as the ranges allow. -/
def d_meta : ScoreDraws :=
  { volume_volatility := 1/10, unusual_spikes := 0, repetitive_trades := 0,
    bot_activity := 0, similarity_score := 1, missing_data := 1/2,
    engagement_score := 1, sentiment_score := 1 }

/-- C7 (counterexample): the component warnings are keyed on the weighted
components, not the raw sub-scores: at `d_meta` the metadata sub-score is
0.85 > 0.6, yet the recommendation list is the bare low-risk pair — the
metadata warning line is not appended. -/
theorem raw_subscore_warning_never_appended :
    d_meta.Valid ∧
    6/10 < metadata_risk_score d_meta ∧
    (calculate_risk_score (0 : ℕ) (Except.ok d_meta)).recommendations =
      ["✅ LOW RISK: Appears relatively safe",
       "📈 Continue monitoring for any changes"] ∧
    "📝 Metadata integrity concerns" ∉
      (calculate_risk_score (0 : ℕ) (Except.ok d_meta)).recommendations := by
  have htot : total_risk_score d_meta = 443/2000 := by
    norm_num [total_risk_score, risk_components, volume_risk_score, trading_risk_score,
      metadata_risk_score, social_risk_score, d_meta, min_def, max_def]
  have hrec : (calculate_risk_score (0 : ℕ) (Except.ok d_meta)).recommendations =
      ["✅ LOW RISK: Appears relatively safe",
       "📈 Continue monitoring for any changes"] := by
    show generate_recommendations (total_risk_score d_meta) (risk_components d_meta) = _
    have hc7 : ¬ (7/10 < total_risk_score d_meta) := by rw [htot]; norm_num
    have hc5 : ¬ (5/10 < total_risk_score d_meta) := by rw [htot]; norm_num
    have w1 : ¬ (6/10 < (risk_components d_meta).volume_risk) := by
      norm_num [risk_components, volume_risk_score, d_meta, min_def]
    have w2 : ¬ (6/10 < (risk_components d_meta).trading_risk) := by
      norm_num [risk_components, trading_risk_score, d_meta]
    have w3 : ¬ (6/10 < (risk_components d_meta).metadata_risk) := by
      norm_num [risk_components, metadata_risk_score, d_meta]
    have w4 : ¬ (6/10 < (risk_components d_meta).social_risk) := by
      norm_num [risk_components, social_risk_score, d_meta, max_def]
    simp only [generate_recommendations, if_neg hc7, if_neg hc5, if_neg w1, if_neg w2,
      if_neg w3, if_neg w4, List.append_nil]
  refine ⟨by norm_num [d_meta, ScoreDraws.Valid], ?_, hrec, ?_⟩
  · norm_num [metadata_risk_score, d_meta]
  · rw [hrec]
    decide

/-- C7 (amended): the recommendation list is the pair of lines picked by the
fixed thresholds on the overall score (>0.7 high pair, >0.5 medium pair, else
low pair), followed by one canned warning per weighted component — sub-score
times its weight, not the raw sub-score — exceeding 0.6; for draws inside the
documented ranges every weighted component is at most 0.3, so the list is
always exactly the threshold-selected pair. -/
theorem recommendation_selection {α : Type} (a : α) (d : ScoreDraws) :
    ((calculate_risk_score a (Except.ok d)).recommendations =
      (if 7/10 < total_risk_score d then
        ["⚠️ HIGH RISK: Avoid investment until further investigation",
         "🔍 Conduct thorough due diligence on project team"]
       else if 5/10 < total_risk_score d then
        ["⚡ MEDIUM RISK: Proceed with caution",
         "📊 Monitor trading patterns closely"]
       else
        ["✅ LOW RISK: Appears relatively safe",
         "📈 Continue monitoring for any changes"])
      ++ (if 6/10 < volume_risk_score d * (3/10) then
            ["📉 Volume patterns show irregularities"] else [])
      ++ (if 6/10 < trading_risk_score d * (25/100) then
            ["🤖 Potential bot activity detected"] else [])
      ++ (if 6/10 < metadata_risk_score d * (25/100) then
            ["📝 Metadata integrity concerns"] else [])
      ++ (if 6/10 < social_risk_score d * (2/10) then
            ["👥 Weak community engagement"] else [])) ∧
    (d.Valid →
      (calculate_risk_score a (Except.ok d)).recommendations =
        (if 7/10 < total_risk_score d then
          ["⚠️ HIGH RISK: Avoid investment until further investigation",
           "🔍 Conduct thorough due diligence on project team"]
         else if 5/10 < total_risk_score d then
          ["⚡ MEDIUM RISK: Proceed with caution",
           "📊 Monitor trading patterns closely"]
         else
          ["✅ LOW RISK: Appears relatively safe",
           "📈 Continue monitoring for any changes"])) := by
  have hstruct : (calculate_risk_score a (Except.ok d)).recommendations =
      generate_recommendations (total_risk_score d) (risk_components d) := rfl
  refine ⟨hstruct, ?_⟩
  intro hv
  obtain ⟨⟨hv0, hv1⟩, ⟨ht0, ht1⟩, ⟨hm0, hm1⟩, ⟨hs0, hs1⟩⟩ := sub_risk_scores_bounds d hv
  have c1 : ¬ (6/10 < volume_risk_score d * (3/10)) := by linarith
  have c2 : ¬ (6/10 < trading_risk_score d * (25/100)) := by linarith
  have c3 : ¬ (6/10 < metadata_risk_score d * (25/100)) := by linarith
  have c4 : ¬ (6/10 < social_risk_score d * (2/10)) := by linarith
  rw [hstruct]
  simp only [generate_recommendations, risk_components, if_neg c1, if_neg c2,
    if_neg c3, if_neg c4, List.append_nil]

/-! ## Dictionary lemmas for the multi-metric loop -/

/-- Overwriting the value under `k` leaves every other key's lookup alone. -/
theorem dict_get_map_replace {J : Type} (t : List (String × J)) (k : String) (v : J)
    (m : String) (hkm : k ≠ m) :
    dict_get (t.map (fun p => if p.1 = k then (k, v) else p)) m = dict_get t m := by
  induction t with
  | nil => rfl
  | cons a t ih =>
    obtain ⟨ak, av⟩ := a
    simp only [List.map_cons]
    by_cases hak : ak = k
    · have hf : (if (ak, av).1 = k then (k, v) else (ak, av)) = (k, v) := if_pos hak
      have hne2 : ¬ (ak = m) := by rw [hak]; exact hkm
      rw [hf]
      simp only [dict_get, if_neg hkm, if_neg hne2, ih]
    · have hf : (if (ak, av).1 = k then (k, v) else (ak, av)) = (ak, av) := if_neg hak
      rw [hf]
      simp only [dict_get, ih]

/-- A key outside the dict stays where insertion appends it. -/
theorem dict_insert_cons_ne {J : Type} (ak : String) (av : J) (t : List (String × J))
    (k : String) (v : J) (hak : ak ≠ k) :
    dict_insert ((ak, av) :: t) k v = (ak, av) :: dict_insert t k v := by
  unfold dict_insert
  by_cases hm : dict_mem t k <;> simp [dict_mem, hak, hm]

/-- Insertion at the head key overwrites it in place. -/
theorem dict_insert_cons_eq {J : Type} (av : J) (t : List (String × J))
    (k : String) (v : J) :
    dict_insert ((k, av) :: t) k v =
      (k, v) :: t.map (fun p => if p.1 = k then (k, v) else p) := by
  unfold dict_insert
  simp [dict_mem]

/-- Lookup after a Python-dict insertion: the inserted key reads the new
value, every other key is untouched. -/
theorem dict_get_insert {J : Type} (d : List (String × J)) (k : String) (v : J)
    (m : String) :
    dict_get (dict_insert d k v) m = if k = m then some v else dict_get d m := by
  induction d with
  | nil => simp [dict_insert, dict_mem, dict_get]
  | cons a t ih =>
    obtain ⟨ak, av⟩ := a
    by_cases hak : ak = k
    · subst hak
      rw [dict_insert_cons_eq]
      by_cases hm : ak = m
      · subst hm; simp [dict_get]
      · simp [dict_get, hm, dict_get_map_replace t ak v m hm]
    · rw [dict_insert_cons_ne ak av t k v hak]
      by_cases hm : ak = m
      · have hkm : ¬ (k = m) := fun hh => hak (hm.trans hh.symm)
        simp [dict_get, hm, hkm]
      · simp [dict_get, hm, ih]

/-- What one key of the loop's `results` dict holds, over any starting
accumulator: the upstream answer for that metric when the loop saw the key
and the call succeeded, the accumulator's value otherwise. -/
theorem dict_get_foldl_steps {J : Type} (resp : UpstreamParams → Option J)
    (chain time_range currency : String) (l : List String) (m : String) :
    ∀ acc : List (String × J),
      dict_get (l.foldl (metric_call_step resp chain time_range currency) acc) m =
        match resp (api_market_metrics_params chain m time_range currency) with
        | some v => if m ∈ l then some v else dict_get acc m
        | none => dict_get acc m := by
  induction l with
  | nil =>
    intro acc
    cases hr : resp (api_market_metrics_params chain m time_range currency) <;> simp [hr]
  | cons a l ih =>
    intro acc
    rw [List.foldl_cons, ih]
    by_cases ham : a = m
    · subst ham
      unfold metric_call_step get_market_metrics
      cases hr : resp (api_market_metrics_params chain a time_range currency) <;>
        simp [hr, dict_get_insert]
    · have hma : ¬ (m = a) := fun hh => ham hh.symm
      unfold metric_call_step get_market_metrics
      cases hra : resp (api_market_metrics_params chain a time_range currency) with
      | none =>
        cases hrm : resp (api_market_metrics_params chain m time_range currency) <;>
          simp [hrm, hma, List.mem_cons]
      | some v =>
        cases hrm : resp (api_market_metrics_params chain m time_range currency) <;>
          simp [hrm, hma, ham, dict_get_insert, List.mem_cons]

/-- The `results` dict of the multi-metric loop, characterised per key: a
requested metric name reads its upstream answer, anything else is absent. -/
theorem dict_get_collect {J : Type} (resp : UpstreamParams → Option J)
    (chain : String) (metrics_list : List String) (time_range currency : String)
    (m : String) :
    dict_get (collect_metric_results resp chain metrics_list time_range currency) m =
      if m ∈ metrics_list then resp (api_market_metrics_params chain m time_range currency)
      else none := by
  unfold collect_metric_results
  rw [dict_get_foldl_steps]
  cases hr : resp (api_market_metrics_params chain m time_range currency) <;>
    by_cases hm : m ∈ metrics_list <;> simp [hr, hm, dict_get]

/-- When every upstream call fails, the loop leaves its accumulator alone. -/
theorem collect_all_fail {J : Type} (resp : UpstreamParams → Option J)
    (chain time_range currency : String) (l : List String) :
    ∀ acc : List (String × J),
      (∀ m ∈ l, resp (api_market_metrics_params chain m time_range currency) = none) →
      l.foldl (metric_call_step resp chain time_range currency) acc = acc := by
  induction l with
  | nil => intro acc _; rfl
  | cons a l ih =>
    intro acc h
    rw [List.foldl_cons]
    have hstep : metric_call_step resp chain time_range currency acc a = acc := by
      unfold metric_call_step get_market_metrics
      rw [h a (List.mem_cons_self a l)]
    rw [hstep]
    exact ih acc (fun m hm => h m (List.mem_cons_of_mem a hm))

/-- C5: the multi-metric gateway issues one single-metric query per requested
name in order and keys the successes by metric name — a requested name reads
exactly its upstream answer, an unrequested name is absent; when every call
fails the aggregate is the no-result sentinel and the route answers 500, and
one success suffices for the aggregate to be the collected mapping. -/
theorem multiple_metrics_aggregation {J : Type} (resp : UpstreamParams → Option J)
    (chain metrics_param time_range currency : String) (metrics_list : List String) :
    (multiple_metrics_calls chain metrics_list time_range currency =
      metrics_list.map (fun metric =>
        api_market_metrics_params chain metric time_range currency)) ∧
    (∀ m, dict_get (collect_metric_results resp chain metrics_list time_range currency) m =
      if m ∈ metrics_list then resp (api_market_metrics_params chain m time_range currency)
      else none) ∧
    ((∀ m ∈ metrics_list, resp (api_market_metrics_params chain m time_range currency) = none) →
      get_multiple_metrics resp chain metrics_list time_range currency = none) ∧
    (∀ m ∈ metrics_list, resp (api_market_metrics_params chain m time_range currency) ≠ none →
      get_multiple_metrics resp chain metrics_list time_range currency =
        some (collect_metric_results resp chain metrics_list time_range currency)) ∧
    (chain ∈ SUPPORTED_CHAINS →
      get_multiple_metrics resp chain (parse_metrics_param metrics_param)
        time_range currency = none →
      (multiple_metrics_route resp chain metrics_param time_range currency).1 =
        Response.failure 500 "Failed to get multiple metrics") := by
  refine ⟨rfl, fun m => dict_get_collect resp chain metrics_list time_range currency m,
    ?_, ?_, ?_⟩
  · intro hall
    unfold get_multiple_metrics collect_metric_results
    rw [collect_all_fail resp chain time_range currency metrics_list [] hall]
    rfl
  · intro m hm hr
    have hg : dict_get (collect_metric_results resp chain metrics_list time_range currency) m =
        resp (api_market_metrics_params chain m time_range currency) := by
      rw [dict_get_collect resp chain metrics_list time_range currency m, if_pos hm]
    have hne : collect_metric_results resp chain metrics_list time_range currency ≠ [] := by
      intro h0
      rw [h0] at hg
      exact hr hg.symm
    unfold get_multiple_metrics
    simp [List.isEmpty_iff, hne]
  · intro hchain hnone
    simp [multiple_metrics_route, hchain, hnone]

end NFTSA
